import Mathlib

/-!
Verification of the resource lifecycle and cleanup subsystem of eks-hybrid
(`test/e2e/cleanup`): the tag-based filter policy (`shouldDeleteResource`,
`resourceOldEnough`), the sweeper orchestration, idempotent delete wrappers,
the VPC teardown sequence, and the ARN-parsing helpers.

Time is modelled on an absolute axis of integer nanoseconds whose origin is
Go's zero `time.Time` (January 1, year 1 UTC).  Go durations are 64-bit
signed nanosecond counts and `time.Time.Sub` saturates at the extremal
`Duration` values, which the embedding reproduces (`timeSub`).
-/

namespace Cleanup

/-- `constants.TestClusterTagKey` (constants.go line 5). -/
def testClusterTagKey : String := "Nodeadm-E2E-Tests-Cluster"

/-- A key/value resource tag (iam.go second document, `Tag`). -/
structure Tag where
  key : String
  value : String
deriving Repr, DecidableEq

/-- Canonical view of a cloud resource (iam.go second document,
`ResourceWithTags`).  `creationTime` is the instant in nanoseconds since
the Go zero time; the Go zero `time.Time` is the integer `0`. -/
structure ResourceWithTags where
  id : String
  creationTime : Int
  tags : List Tag
deriving Repr, DecidableEq

/-- Filter configuration (sweeper.go, `FilterInput`).  `clusterNamePre`
embeds the Go field `ClusterNamePrefix`; `instanceAgeThreshold` is a Go
`time.Duration` (an `int64` count of nanoseconds). -/
structure FilterInput where
  clusterName : String
  clusterNamePre : String
  allClusters : Bool
  instanceAgeThreshold : Int
  dryRun : Bool
deriving Repr, DecidableEq

/-- Largest Go `time.Duration` (`1<<63 - 1` nanoseconds). -/
def maxDuration : Int := 9223372036854775807

/-- Smallest Go `time.Duration` (`-1 << 63` nanoseconds). -/
def minDuration : Int := -9223372036854775808

/-- Embeds Go `time.Time.Sub`: the mathematical difference, saturated to the
representable `Duration` range exactly as `Sub` does on overflow. -/
def timeSub (t u : Int) : Int :=
  let d := t - u
  if d > maxDuration then maxDuration
  else if d < minDuration then minDuration
  else d

/-- Embeds Go `time.Since(t)` evaluated when the wall clock reads `now`. -/
def timeSince (now t : Int) : Int := timeSub now t

/-- Embeds Go `strings.HasPrefix` on the character lists of the strings
(structurally recursive, so it evaluates by kernel reduction). -/
def goHasPre (s pre : String) : Bool := pre.data.isPrefixOf s.data

/-- Embeds `getClusterTagValue` (iam.go second document, lines 197-206):
the value of the first tag whose key is `TestClusterTagKey`, the empty
string when there is none. -/
def getClusterTagValue : List Tag → String
  | [] => ""
  | tag :: rest =>
    if tag.key == testClusterTagKey then tag.value else getClusterTagValue rest

/-- Embeds `resourceOldEnough` (iam.go second document, lines 231-239),
evaluated when the wall clock reads `now`. -/
def resourceOldEnough (now creationTime : Int) (input : FilterInput) : Bool :=
  if input.clusterName != "" then true
  else decide (timeSince now creationTime > input.instanceAgeThreshold)

/-- Embeds `shouldDeleteResource` (iam.go second document, lines 208-225),
evaluated when the wall clock reads `now`. -/
def shouldDeleteResource (now : Int) (resource : ResourceWithTags) (input : FilterInput) : Bool :=
  let clusterTagValue := getClusterTagValue resource.tags
  if clusterTagValue == "" then false
  else if input.clusterName != "" then clusterTagValue == input.clusterName
  else if input.allClusters ||
      (input.clusterNamePre != "" && goHasPre clusterTagValue input.clusterNamePre) then
    resourceOldEnough now resource.creationTime input
  else false

/-- Go zero `time.Time` on the nanosecond axis. -/
def goZeroTime : Int := 0

/-- Embeds the `ResourceWithTags` literal built for a VPC by
`VPCCleaner.ListTaggedVPCs` (sweeper.go second document, lines 168-176):
VPCs carry the zero creation time. -/
def vpcResource (id : String) (tags : List Tag) : ResourceWithTags :=
  { id := id, creationTime := goZeroTime, tags := tags }

/-! ### Sweeper (sweeper.go first document, lines 21-119)

The SSM collaborator is modelled by the results it returns for one run:
each of the two listing calls either fails or yields candidate IDs, and
each of the two bulk delete calls either fails or succeeds.  Every cleanup
phase records, in order, the collaborator calls it makes. -/

/-- `SweeperInput` (sweeper.go lines 21-27); `clusterNamePre` embeds the Go
field `ClusterNamePrefix`. -/
structure SweeperInput where
  allClusters : Bool
  dryRun : Bool
  clusterName : String
  clusterNamePre : String
  instanceAgeThreshold : Int
deriving Repr, DecidableEq

/-- One call made to the SSM collaborator by the sweeper. -/
inductive SSMCall where
  | listManagedInstances
  | listActivations
  | deleteManagedInstances (ids : List String)
  | deleteActivations (ids : List String)
deriving Repr, DecidableEq

/-- Behavior of the SSM collaborator during one sweeper run. -/
structure SweeperEnv where
  listManagedInstancesResult : Except String (List String)
  listActivationsResult : Except String (List String)
  deleteManagedInstancesResult : Option String
  deleteActivationsResult : Option String
deriving Repr

/-- Embeds the `FilterInput` literal built by `Sweeper.Run`
(sweeper.go lines 62-68). -/
def filterInputOf (input : SweeperInput) : FilterInput :=
  { clusterName := input.clusterName
    clusterNamePre := input.clusterNamePre
    allClusters := input.allClusters
    instanceAgeThreshold := input.instanceAgeThreshold
    dryRun := input.dryRun }

/-- Embeds `Sweeper.cleanupSSMManagedInstances` (sweeper.go lines 81-99):
list the candidates, log them, return before any delete when `DryRun`,
otherwise bulk-delete.  Returns the collaborator calls made and the error
result. -/
def cleanupSSMManagedInstances (env : SweeperEnv) (filterInput : FilterInput) :
    List SSMCall × Option String :=
  match env.listManagedInstancesResult with
  | .error e => ([.listManagedInstances], some ("listing managed instances: " ++ e))
  | .ok instanceIds =>
    if filterInput.dryRun then ([.listManagedInstances], none)
    else
      match env.deleteManagedInstancesResult with
      | some e => ([.listManagedInstances, .deleteManagedInstances instanceIds],
          some ("deleting managed instances: " ++ e))
      | none => ([.listManagedInstances, .deleteManagedInstances instanceIds], none)

/-- Embeds `Sweeper.cleanupSSMHybridActivations` (sweeper.go lines 101-119). -/
def cleanupSSMHybridActivations (env : SweeperEnv) (filterInput : FilterInput) :
    List SSMCall × Option String :=
  match env.listActivationsResult with
  | .error e => ([.listActivations], some ("listing activations: " ++ e))
  | .ok activationIDs =>
    if filterInput.dryRun then ([.listActivations], none)
    else
      match env.deleteActivationsResult with
      | some e => ([.listActivations, .deleteActivations activationIDs],
          some ("deleting activations: " ++ e))
      | none => ([.listActivations, .deleteActivations activationIDs], none)

/-- Embeds `Sweeper.Run` (sweeper.go lines 61-79): build the filter input,
run the managed-instance phase and return its wrapped error if it fails,
else run the hybrid-activation phase likewise. -/
def sweeperRun (env : SweeperEnv) (input : SweeperInput) : List SSMCall × Option String :=
  match cleanupSSMManagedInstances env (filterInputOf input) with
  | (calls1, some e) => (calls1, some ("cleaning up SSM managed instances: " ++ e))
  | (calls1, none) =>
    match cleanupSSMHybridActivations env (filterInputOf input) with
    | (calls2, some e) => (calls1 ++ calls2, some ("cleaning up SSM hybrid activations: " ++ e))
    | (calls2, none) => (calls1 ++ calls2, none)

/-! ### Idempotent delete wrappers (iam.go, ssm.go, rolesanywhere.go)

The AWS APIs are modelled deterministically: a delete against a present
resource removes it and succeeds, a delete against an absent resource
returns the service's typed not-found error, which `errors.IsType`
pattern-matches in the Go wrappers. -/

/-- Typed AWS API errors pattern-matched by `errors.IsType`. -/
inductive AwsErr where
  | noSuchEntity
  | invalidActivation
  | invalidInstanceId
  | parameterNotFound
  | resourceNotFound
  | other (m : String)
deriving Repr, DecidableEq

/-- The message a typed error contributes when wrapped by `fmt.Errorf`. -/
def AwsErr.msg : AwsErr → String
  | .noSuchEntity => "NoSuchEntityException"
  | .invalidActivation => "InvalidActivation"
  | .invalidInstanceId => "InvalidInstanceId"
  | .parameterNotFound => "ParameterNotFound"
  | .resourceNotFound => "ResourceNotFoundException"
  | .other m => m

/-- IAM account state: each role together with the instance profiles that
still reference it. -/
structure IAMState where
  roles : List (String × List String)
deriving Repr, DecidableEq

/-- AWS `ListInstanceProfilesForRole`: `NoSuchEntity` for an absent role. -/
def listInstanceProfilesForRole (s : IAMState) (roleName : String) :
    Except AwsErr (List String) :=
  match s.roles.find? (fun r => r.1 == roleName) with
  | none => .error .noSuchEntity
  | some r => .ok r.2

/-- AWS `RemoveRoleFromInstanceProfile`: detaches the role from the profile. -/
def removeRoleFromInstanceProfile (s : IAMState) (roleName profileName : String) : IAMState :=
  { roles := s.roles.map (fun r =>
      if r.1 == roleName then (r.1, r.2.filter (fun p => p != profileName)) else r) }

/-- AWS `DeleteRole`: `NoSuchEntity` for an absent role. -/
def deleteRoleApi (s : IAMState) (roleName : String) : IAMState × Option AwsErr :=
  if s.roles.any (fun r => r.1 == roleName) then
    ({ roles := s.roles.filter (fun r => r.1 != roleName) }, none)
  else (s, some .noSuchEntity)

/-- Embeds `IAMCleaner.DeleteRole` (iam.go first document, lines 75-108):
`NoSuchEntity` from the listing means the role is already gone (success);
otherwise the role is detached from each returned instance profile and
deleted, tolerating `NoSuchEntity` on the delete as well. -/
def IAMCleaner.DeleteRole (s : IAMState) (roleName : String) : IAMState × Option String :=
  match listInstanceProfilesForRole s roleName with
  | .error .noSuchEntity => (s, none)
  | .error e => (s, some ("listing IAM instance profiles: " ++ e.msg))
  | .ok instanceProfiles =>
    let s1 := instanceProfiles.foldl
      (fun acc p => removeRoleFromInstanceProfile acc roleName p) s
    match deleteRoleApi s1 roleName with
    | (s2, some .noSuchEntity) => (s2, none)
    | (s2, some e) => (s2, some ("deleting IAM role " ++ roleName ++ ": " ++ e.msg))
    | (s2, none) => (s2, none)

/-- SSM account state. -/
structure SSMState where
  activations : List String
  managedInstances : List String
  parameters : List String
deriving Repr, DecidableEq

/-- AWS `DeleteActivation`: `InvalidActivation` for an absent activation. -/
def deleteActivationApi (s : SSMState) (id : String) : SSMState × Option AwsErr :=
  if s.activations.contains id then
    ({ s with activations := s.activations.filter (fun a => a != id) }, none)
  else (s, some .invalidActivation)

/-- AWS `DeregisterManagedInstance`: `InvalidInstanceId` when absent. -/
def deregisterManagedInstanceApi (s : SSMState) (id : String) : SSMState × Option AwsErr :=
  if s.managedInstances.contains id then
    ({ s with managedInstances := s.managedInstances.filter (fun a => a != id) }, none)
  else (s, some .invalidInstanceId)

/-- AWS `DeleteParameter`: `ParameterNotFound` when absent. -/
def deleteParameterApi (s : SSMState) (name : String) : SSMState × Option AwsErr :=
  if s.parameters.contains name then
    ({ s with parameters := s.parameters.filter (fun a => a != name) }, none)
  else (s, some .parameterNotFound)

/-- Embeds `SSMCleaner.DeleteActivation` (ssm.go lines 66-80): tolerates
`InvalidActivation` as "already deleted". -/
def SSMCleaner.DeleteActivation (s : SSMState) (activationID : String) :
    SSMState × Option String :=
  match deleteActivationApi s activationID with
  | (s1, some .invalidActivation) => (s1, none)
  | (s1, some e) => (s1, some ("deleting SSM activation: " ++ e.msg))
  | (s1, none) => (s1, none)

/-- Embeds `SSMCleaner.DeleteManagedInstance` (ssm.go lines 171-185):
tolerates `InvalidInstanceId` as "already deregistered". -/
def SSMCleaner.DeleteManagedInstance (s : SSMState) (instanceID : String) :
    SSMState × Option String :=
  match deregisterManagedInstanceApi s instanceID with
  | (s1, some .invalidInstanceId) => (s1, none)
  | (s1, some e) => (s1, some ("deregistering managed instance: " ++ e.msg))
  | (s1, none) => (s1, none)

/-- Embeds `SSMCleaner.DeleteParameter` (ssm.go lines 233-246): tolerates
`ParameterNotFound` as "already deleted". -/
def SSMCleaner.DeleteParameter (s : SSMState) (parameterName : String) :
    SSMState × Option String :=
  match deleteParameterApi s parameterName with
  | (s1, some .parameterNotFound) => (s1, none)
  | (s1, some e) => (s1, some ("deleting SSM parameter " ++ parameterName ++ ": " ++ e.msg))
  | (s1, none) => (s1, none)

/-- IAM Roles Anywhere account state. -/
structure RAState where
  profiles : List String
  trustAnchors : List String
deriving Repr, DecidableEq

/-- AWS Roles Anywhere `DeleteProfile`: `ResourceNotFoundException` when absent. -/
def deleteProfileApi (s : RAState) (id : String) : RAState × Option AwsErr :=
  if s.profiles.contains id then
    ({ s with profiles := s.profiles.filter (fun a => a != id) }, none)
  else (s, some .resourceNotFound)

/-- AWS Roles Anywhere `DeleteTrustAnchor`: `ResourceNotFoundException` when absent. -/
def deleteTrustAnchorApi (s : RAState) (id : String) : RAState × Option AwsErr :=
  if s.trustAnchors.contains id then
    ({ s with trustAnchors := s.trustAnchors.filter (fun a => a != id) }, none)
  else (s, some .resourceNotFound)

/-- Embeds `RolesAnywhereCleaner.DeleteProfile` of the SECOND document of
rolesanywhere.go (lines 228-242): tolerates `ResourceNotFoundException`. -/
def RolesAnywhereCleaner.DeleteProfile (s : RAState) (profileID : String) :
    RAState × Option String :=
  match deleteProfileApi s profileID with
  | (s1, some .resourceNotFound) => (s1, none)
  | (s1, some e) =>
    (s1, some ("deleting roles anywhere profile " ++ profileID ++ ": " ++ e.msg))
  | (s1, none) => (s1, none)

/-- Embeds `RolesAnywhereCleaner.DeleteTrustAnchor` of the SECOND document
of rolesanywhere.go (lines 286-300): tolerates `ResourceNotFoundException`. -/
def RolesAnywhereCleaner.DeleteTrustAnchor (s : RAState) (anchorID : String) :
    RAState × Option String :=
  match deleteTrustAnchorApi s anchorID with
  | (s1, some .resourceNotFound) => (s1, none)
  | (s1, some e) =>
    (s1, some ("deleting roles anywhere trust anchor " ++ anchorID ++ ": " ++ e.msg))
  | (s1, none) => (s1, none)

/-- Embeds the `DeleteProfile` variant in the FIRST document of
rolesanywhere.go (lines 73-82): it wraps and propagates EVERY error,
including `ResourceNotFoundException`. -/
def RolesAnywhereCleanerV1.DeleteProfile (s : RAState) (profileID : String) :
    RAState × Option String :=
  match deleteProfileApi s profileID with
  | (s1, some e) =>
    (s1, some ("deleting roles anywhere profile " ++ profileID ++ ": " ++ e.msg))
  | (s1, none) => (s1, none)

/-- Embeds the `DeleteTrustAnchor` variant in the FIRST document of
rolesanywhere.go (lines 136-145): it wraps and propagates EVERY error. -/
def RolesAnywhereCleanerV1.DeleteTrustAnchor (s : RAState) (anchorID : String) :
    RAState × Option String :=
  match deleteTrustAnchorApi s anchorID with
  | (s1, some e) =>
    (s1, some ("deleting roles anywhere trust anchor " ++ anchorID ++ ": " ++ e.msg))
  | (s1, none) => (s1, none)

/-! ### ARN parsing helpers (ssm.go, rolesanywhere.go, eks.go)

Go's `strings.Split` with a one-character separator is embedded over the
character list of the string; a Go slice index that may be out of range is
embedded as an optional lookup, with `none` standing for the
index-out-of-range panic. -/

/-- Embeds Go `strings.Split(s, sep)` for a single-character separator.
Like `strings.Split` it always yields at least one (possibly empty)
segment. -/
def goSplit (sep : Char) : List Char → List (List Char)
  | [] => [[]]
  | c :: cs =>
    if c = sep then [] :: goSplit sep cs
    else
      match goSplit sep cs with
      | [] => [[c]]
      | seg :: segs => (c :: seg) :: segs

/-- Embeds Go `strings.TrimPrefix`. -/
def goTrimPre (pre s : List Char) : List Char :=
  if pre.isPrefixOf s then s.drop pre.length else s

/-- Embeds `managedInstanceIDFromARN` (ssm.go lines 114-117):
`parts[len(parts)-1]` of the split on "/". -/
def managedInstanceIDFromARN (arn : String) : Option String :=
  ((goSplit '/' arn.data).get? ((goSplit '/' arn.data).length - 1)).map
    (fun l => String.mk l)

/-- Embeds `parameterNameFromARN` (ssm.go lines 188-192): the last
":"-segment with the literal "parameter" trimmed from its front. -/
def parameterNameFromARN (arn : String) : Option String :=
  ((goSplit ':' arn.data).get? ((goSplit ':' arn.data).length - 1)).map
    (fun part => String.mk (goTrimPre "parameter".data part))

/-- Embeds `parseResourceIdFromARN` (rolesanywhere.go second document,
lines 187-190): `parts[len(parts)-1]` of the split on "/". -/
def parseResourceIdFromARN (arn : String) : Option String :=
  ((goSplit '/' arn.data).get? ((goSplit '/' arn.data).length - 1)).map
    (fun l => String.mk l)

/-- Embeds `extractClusterName` (eks.go lines 74-84): split on ":", return
"" for fewer than six segments, else split the sixth segment on "/" and
evaluate `parts[1]` — an index that Go does not guard (its guard
`len(parts) < 1` can never fire, as a split is never empty), so `none`
models the index-out-of-range panic when the sixth segment has no "/". -/
def extractClusterName (stackARN : String) : Option String :=
  if (goSplit ':' stackARN.data).length < 6 then some ""
  else
    if (goSplit '/' ((goSplit ':' stackARN.data).getD 5 [])).length < 1 then some ""
    else ((goSplit '/' ((goSplit ':' stackARN.data).getD 5 [])).get? 1).map
      (fun l => String.mk l)

/-! ### VPC teardown (sweeper.go second document, lines 186-444)

The EC2 collaborator is modelled as the set of VPCs with their attached
resources, together with a fault set: the API calls that fail during the
run.  Every teardown function returns the updated state, the API calls it
issued in order, and its error result, mirroring the Go control flow. -/

/-- A route-table association (`AssociationId` may be nil). -/
structure RTAssoc where
  assocId : Option String
deriving Repr, DecidableEq

/-- A route table of a VPC as `DescribeRouteTables` reports it. -/
structure RouteTable where
  rtId : String
  isMain : Bool
  assocs : List RTAssoc
deriving Repr, DecidableEq

/-- A security group as `DescribeSecurityGroups` reports it. -/
structure SecurityGroup where
  sgId : String
  name : String
  ingressRules : Nat
  egressRules : Nat
deriving Repr, DecidableEq

/-- The EC2 resources attached to one VPC. -/
structure VpcNet where
  igws : List String
  subnets : List String
  routeTables : List RouteTable
  securityGroups : List SecurityGroup
deriving Repr, DecidableEq

/-- EC2 regional state: the existing VPCs and their attached resources. -/
structure EC2State where
  vpcs : List (String × VpcNet)
deriving Repr, DecidableEq

/-- One EC2 API call issued during VPC teardown. -/
inductive EC2Call where
  | describeInternetGateways (vpcID : String)
  | detachInternetGateway (igwID vpcID : String)
  | deleteInternetGateway (igwID : String)
  | describeSubnets (vpcID : String)
  | deleteSubnet (subnetID : String)
  | describeMainRouteTable (vpcID : String)
  | describeRouteTables (vpcID : String)
  | disassociateRouteTable (assocID : String)
  | deleteRouteTable (rtID : String)
  | describeSecurityGroups (vpcID : String)
  | revokeSecurityGroupIngress (sgID : String)
  | revokeSecurityGroupEgress (sgID : String)
  | deleteSecurityGroup (sgID : String)
  | deleteVpc (vpcID : String)
deriving Repr, DecidableEq

/-- The teardown step (1-5 in `DeleteVPCs`) each API call belongs to. -/
def stepIdx : EC2Call → Nat
  | .describeInternetGateways _ => 1
  | .detachInternetGateway _ _ => 1
  | .deleteInternetGateway _ => 1
  | .describeSubnets _ => 2
  | .deleteSubnet _ => 2
  | .describeMainRouteTable _ => 3
  | .describeRouteTables _ => 3
  | .disassociateRouteTable _ => 3
  | .deleteRouteTable _ => 3
  | .describeSecurityGroups _ => 4
  | .revokeSecurityGroupIngress _ => 4
  | .revokeSecurityGroupEgress _ => 4
  | .deleteSecurityGroup _ => 4
  | .deleteVpc _ => 5

/-- The `fmt.Errorf` wrap applied by `DeleteVPCs` to step `k`'s error. -/
def stepPre : Nat → String
  | 1 => "deleting internet gateways: "
  | 2 => "deleting subnets: "
  | 3 => "deleting route tables: "
  | 4 => "deleting security groups: "
  | _ => "deleting VPC: "

/-- The security-group rule-revocation calls, whose failures Go only logs. -/
def isRevoke : EC2Call → Bool
  | .revokeSecurityGroupIngress _ => true
  | .revokeSecurityGroupEgress _ => true
  | _ => false

/-- Whether the call fails in this run. -/
def callFails (faults : List EC2Call) (c : EC2Call) : Bool := faults.contains c

/-- The resources a describe call filtered on `vpcID` reports (empty for
an absent VPC, as EC2 filters match nothing). -/
def lookupVpc (s : EC2State) (vpcID : String) : VpcNet :=
  ((s.vpcs.find? (fun v => v.1 == vpcID)).map Prod.snd).getD ⟨[], [], [], []⟩

def updateVpc (s : EC2State) (vpcID : String) (f : VpcNet → VpcNet) : EC2State :=
  { vpcs := s.vpcs.map (fun v => if v.1 == vpcID then (v.1, f v.2) else v) }

def vpcPresent (s : EC2State) (vpcID : String) : Bool :=
  s.vpcs.any (fun v => v.1 == vpcID)

/-- The loop body of `deleteInternetGateways` (sweeper.go lines 238-257):
detach, then delete, failing fast on either call's error. -/
def igwLoop (faults : List EC2Call) (vpcID : String) :
    List String → EC2State → EC2State × List EC2Call × Option String
  | [], s => (s, [], none)
  | igwID :: rest, s =>
    if callFails faults (.detachInternetGateway igwID vpcID) then
      (s, [.detachInternetGateway igwID vpcID],
        some ("detaching internet gateway " ++ igwID ++ ": api error"))
    else
      let s1 := updateVpc s vpcID
        (fun net => { net with igws := net.igws.filter (fun i => i != igwID) })
      if callFails faults (.deleteInternetGateway igwID) then
        (s1, [.detachInternetGateway igwID vpcID, .deleteInternetGateway igwID],
          some ("deleting internet gateway " ++ igwID ++ ": api error"))
      else
        match igwLoop faults vpcID rest s1 with
        | (s2, calls, err) =>
          (s2, .detachInternetGateway igwID vpcID :: .deleteInternetGateway igwID :: calls,
            err)

/-- Embeds `VPCCleaner.deleteInternetGateways` (sweeper.go lines 225-260). -/
def deleteInternetGateways (faults : List EC2Call) (s : EC2State) (vpcID : String) :
    EC2State × List EC2Call × Option String :=
  if callFails faults (.describeInternetGateways vpcID) then
    (s, [.describeInternetGateways vpcID], some "describing internet gateways: api error")
  else
    match igwLoop faults vpcID (lookupVpc s vpcID).igws s with
    | (s1, calls, err) => (s1, .describeInternetGateways vpcID :: calls, err)

/-- The loop body of `deleteSubnets` (sweeper.go lines 276-286). -/
def subnetLoop (faults : List EC2Call) (vpcID : String) :
    List String → EC2State → EC2State × List EC2Call × Option String
  | [], s => (s, [], none)
  | subnetID :: rest, s =>
    if callFails faults (.deleteSubnet subnetID) then
      (s, [.deleteSubnet subnetID], some ("deleting subnet " ++ subnetID ++ ": api error"))
    else
      let s1 := updateVpc s vpcID
        (fun net => { net with subnets := net.subnets.filter (fun i => i != subnetID) })
      match subnetLoop faults vpcID rest s1 with
      | (s2, calls, err) => (s2, .deleteSubnet subnetID :: calls, err)

/-- Embeds `VPCCleaner.deleteSubnets` (sweeper.go lines 263-289). -/
def deleteSubnets (faults : List EC2Call) (s : EC2State) (vpcID : String) :
    EC2State × List EC2Call × Option String :=
  if callFails faults (.describeSubnets vpcID) then
    (s, [.describeSubnets vpcID], some "describing subnets: api error")
  else
    match subnetLoop faults vpcID (lookupVpc s vpcID).subnets s with
    | (s1, calls, err) => (s1, .describeSubnets vpcID :: calls, err)

/-- The ID `deleteRouteTables` takes for the main route table: the first
reported main-associated table, or "" when there is none
(sweeper.go lines 310-313). -/
def describeMainRTResult (net : VpcNet) : String :=
  match net.routeTables.find? (fun rt => rt.isMain) with
  | some rt => rt.rtId
  | none => ""

/-- The association loop of `deleteRouteTables` (sweeper.go lines 337-347):
disassociate every association that has an ID, failing fast. -/
def assocLoop (faults : List EC2Call) (vpcID rtID : String) :
    List RTAssoc → EC2State → EC2State × List EC2Call × Option String
  | [], s => (s, [], none)
  | a :: rest, s =>
    match a.assocId with
    | none => assocLoop faults vpcID rtID rest s
    | some aid =>
      if callFails faults (.disassociateRouteTable aid) then
        (s, [.disassociateRouteTable aid],
          some ("disassociating route table " ++ rtID ++ ": api error"))
      else
        let s1 := updateVpc s vpcID (fun net =>
          { net with routeTables := net.routeTables.map (fun rt =>
              { rt with assocs := rt.assocs.filter (fun x => x.assocId != some aid) }) })
        match assocLoop faults vpcID rtID rest s1 with
        | (s2, calls, err) => (s2, .disassociateRouteTable aid :: calls, err)

/-- The route-table loop of `deleteRouteTables` (sweeper.go lines 328-356):
skip the main table, disassociate, then delete, failing fast. -/
def rtLoop (faults : List EC2Call) (vpcID mainID : String) :
    List RouteTable → EC2State → EC2State × List EC2Call × Option String
  | [], s => (s, [], none)
  | rt :: rest, s =>
    if rt.rtId == mainID then rtLoop faults vpcID mainID rest s
    else
      match assocLoop faults vpcID rt.rtId rt.assocs s with
      | (s1, calls1, some e) => (s1, calls1, some e)
      | (s1, calls1, none) =>
        if callFails faults (.deleteRouteTable rt.rtId) then
          (s1, calls1 ++ [.deleteRouteTable rt.rtId],
            some ("deleting route table " ++ rt.rtId ++ ": api error"))
        else
          let s2 := updateVpc s1 vpcID (fun net =>
            { net with routeTables := net.routeTables.filter (fun x => x.rtId != rt.rtId) })
          match rtLoop faults vpcID mainID rest s2 with
          | (s3, calls2, err) =>
            (s3, calls1 ++ .deleteRouteTable rt.rtId :: calls2, err)

/-- Embeds `VPCCleaner.deleteRouteTables` (sweeper.go lines 292-359). -/
def deleteRouteTables (faults : List EC2Call) (s : EC2State) (vpcID : String) :
    EC2State × List EC2Call × Option String :=
  if callFails faults (.describeMainRouteTable vpcID) then
    (s, [.describeMainRouteTable vpcID], some "describing main route table: api error")
  else
    if callFails faults (.describeRouteTables vpcID) then
      (s, [.describeMainRouteTable vpcID, .describeRouteTables vpcID],
        some "describing route tables: api error")
    else
      match rtLoop faults vpcID (describeMainRTResult (lookupVpc s vpcID))
          (lookupVpc s vpcID).routeTables s with
      | (s1, calls, err) =>
        (s1, .describeMainRouteTable vpcID :: .describeRouteTables vpcID :: calls, err)

/-- The revocation calls Go issues for one non-default security group
(sweeper.go lines 385-407): ingress when it has ingress rules, then egress
when it has egress rules — issued whether or not they succeed. -/
def revokeCallsFor (sg : SecurityGroup) : List EC2Call :=
  (if sg.ingressRules > 0 then [EC2Call.revokeSecurityGroupIngress sg.sgId] else [])
    ++ (if sg.egressRules > 0 then [EC2Call.revokeSecurityGroupEgress sg.sgId] else [])

/-- The state effect of the revocation calls for one security group: each
revoke that is issued and does not fail clears that rule set. -/
def revokeStateFor (faults : List EC2Call) (vpcID : String) (sg : SecurityGroup)
    (s : EC2State) : EC2State :=
  let s1 :=
    if sg.ingressRules > 0 then
      if callFails faults (.revokeSecurityGroupIngress sg.sgId) then s
      else updateVpc s vpcID (fun net =>
        { net with
          securityGroups := net.securityGroups.map (fun g =>
            if g.sgId == sg.sgId then { g with ingressRules := 0 } else g) })
    else s
  if sg.egressRules > 0 then
    if callFails faults (.revokeSecurityGroupEgress sg.sgId) then s1
    else updateVpc s1 vpcID (fun net =>
      { net with
        securityGroups := net.securityGroups.map (fun g =>
          if g.sgId == sg.sgId then { g with egressRules := 0 } else g) })
  else s1

/-- The rule-revocation pass of `deleteSecurityGroups` (sweeper.go lines
376-408): skip the default group, revoke non-empty ingress then egress rule
sets; a failed revoke is only logged — this pass can never error. -/
def revokeLoop (faults : List EC2Call) (vpcID : String) :
    List SecurityGroup → EC2State → EC2State × List EC2Call
  | [], s => (s, [])
  | sg :: rest, s =>
    if sg.name == "default" then revokeLoop faults vpcID rest s
    else
      match revokeLoop faults vpcID rest (revokeStateFor faults vpcID sg s) with
      | (s3, calls3) => (s3, revokeCallsFor sg ++ calls3)

/-- The deletion pass of `deleteSecurityGroups` (sweeper.go lines 411-427):
skip the default group, delete the rest, failing fast. -/
def sgDeleteLoop (faults : List EC2Call) (vpcID : String) :
    List SecurityGroup → EC2State → EC2State × List EC2Call × Option String
  | [], s => (s, [], none)
  | sg :: rest, s =>
    if sg.name == "default" then sgDeleteLoop faults vpcID rest s
    else
      if callFails faults (.deleteSecurityGroup sg.sgId) then
        (s, [.deleteSecurityGroup sg.sgId],
          some ("deleting security group " ++ sg.sgId ++ " (" ++ sg.name ++ "): api error"))
      else
        let s1 := updateVpc s vpcID (fun net =>
          { net with
            securityGroups := net.securityGroups.filter (fun g => g.sgId != sg.sgId) })
        match sgDeleteLoop faults vpcID rest s1 with
        | (s2, calls, err) => (s2, .deleteSecurityGroup sg.sgId :: calls, err)

/-- Embeds `VPCCleaner.deleteSecurityGroups` (sweeper.go lines 362-430):
one describe, then both passes over the same described list. -/
def deleteSecurityGroups (faults : List EC2Call) (s : EC2State) (vpcID : String) :
    EC2State × List EC2Call × Option String :=
  if callFails faults (.describeSecurityGroups vpcID) then
    (s, [.describeSecurityGroups vpcID], some "describing security groups: api error")
  else
    match revokeLoop faults vpcID (lookupVpc s vpcID).securityGroups s with
    | (s1, callsR) =>
      match sgDeleteLoop faults vpcID (lookupVpc s vpcID).securityGroups s1 with
      | (s2, callsD, err) => (s2, .describeSecurityGroups vpcID :: callsR ++ callsD, err)

/-- Embeds `VPCCleaner.deleteVPC` (sweeper.go lines 433-444): one
`DeleteVpc` call; a failure (injected through the fault set, like every
other API failure in this model) is wrapped with the VPC ID. -/
def deleteVPCStep (faults : List EC2Call) (s : EC2State) (vpcID : String) :
    EC2State × List EC2Call × Option String :=
  if callFails faults (.deleteVpc vpcID) then
    (s, [.deleteVpc vpcID], some ("deleting VPC " ++ vpcID ++ ": api error"))
  else
    ({ vpcs := s.vpcs.filter (fun v => v.1 != vpcID) }, [.deleteVpc vpcID], none)

/-- The per-VPC body of `VPCCleaner.DeleteVPCs` (sweeper.go lines 194-219):
the five steps in order, each failure wrapped with the step's message and
aborting the VPC's teardown. -/
def deleteOneVPC (faults : List EC2Call) (s : EC2State) (vpcID : String) :
    EC2State × List EC2Call × Option String :=
  match deleteInternetGateways faults s vpcID with
  | (s1, c1, some e) => (s1, c1, some ("deleting internet gateways: " ++ e))
  | (s1, c1, none) =>
    match deleteSubnets faults s1 vpcID with
    | (s2, c2, some e) => (s2, c1 ++ c2, some ("deleting subnets: " ++ e))
    | (s2, c2, none) =>
      match deleteRouteTables faults s2 vpcID with
      | (s3, c3, some e) => (s3, (c1 ++ c2) ++ c3, some ("deleting route tables: " ++ e))
      | (s3, c3, none) =>
        match deleteSecurityGroups faults s3 vpcID with
        | (s4, c4, some e) =>
          (s4, ((c1 ++ c2) ++ c3) ++ c4, some ("deleting security groups: " ++ e))
        | (s4, c4, none) =>
          match deleteVPCStep faults s4 vpcID with
          | (s5, c5, some e) =>
            (s5, (((c1 ++ c2) ++ c3) ++ c4) ++ c5, some ("deleting VPC: " ++ e))
          | (s5, c5, none) => (s5, (((c1 ++ c2) ++ c3) ++ c4) ++ c5, none)

/-- Embeds `VPCCleaner.DeleteVPCs` (sweeper.go lines 187-222): process each
VPC in turn, aborting on the first VPC whose teardown fails. -/
def DeleteVPCs (faults : List EC2Call) (s : EC2State) :
    List String → EC2State × List EC2Call × Option String
  | [] => (s, [], none)
  | vpcID :: rest =>
    match deleteOneVPC faults s vpcID with
    | (s1, c1, some e) => (s1, c1, some e)
    | (s1, c1, none) =>
      match DeleteVPCs faults s1 rest with
      | (s2, c2, err) => (s2, c1 ++ c2, err)

theorem getClusterTagValue_eq_find (tags : List Tag) :
    getClusterTagValue tags =
      ((tags.find? fun t => t.key == testClusterTagKey).map Tag.value).getD "" := by
  induction tags with
  | nil => rfl
  | cons t rest ih =>
    by_cases h : t.key == testClusterTagKey
    · simp [getClusterTagValue, List.find?, h]
    · simp only [Bool.not_eq_true] at h
      simp [getClusterTagValue, List.find?, h, ih]

theorem shouldDeleteResource_eq_age_check
    (now : Int) (resource : ResourceWithTags) (input : FilterInput)
    (htag : getClusterTagValue resource.tags ≠ "")
    (hname : input.clusterName = "") :
    shouldDeleteResource now resource input
      = ((input.allClusters ||
            (input.clusterNamePre != "" &&
              goHasPre (getClusterTagValue resource.tags) input.clusterNamePre))
          && decide (timeSince now resource.creationTime > input.instanceAgeThreshold)) := by
  have h1 : (getClusterTagValue resource.tags == "") = false := by
    simp [htag]
  have h2 : (input.clusterName != "") = false := by
    simp [hname]
  cases hc : (input.allClusters ||
      (input.clusterNamePre != "" &&
        goHasPre (getClusterTagValue resource.tags) input.clusterNamePre)) <;>
    simp [shouldDeleteResource, resourceOldEnough, h1, h2, hc]

/-- C1: for every resource and filter input, if the resource's tags contain
no tag whose key is the reserved cluster tag key (`TestClusterTagKey`), or
the first such tag has the empty string as its value, then
`shouldDeleteResource` returns `false` — for all values of `ClusterName`,
`ClusterNamePrefix`, `AllClusters`, `InstanceAgeThreshold` and of the
resource's creation time and of the clock. -/
theorem shouldDeleteResource_missing_or_empty_cluster_tag
    (now : Int) (resource : ResourceWithTags) (input : FilterInput)
    (h : resource.tags.find? (fun t => t.key == testClusterTagKey) = none
      ∨ ∃ t, resource.tags.find? (fun t => t.key == testClusterTagKey) = some t
          ∧ t.value = "") :
    shouldDeleteResource now resource input = false := by
  have hval : getClusterTagValue resource.tags = "" := by
    rw [getClusterTagValue_eq_find]
    rcases h with h | ⟨t, ht, hv⟩
    · rw [h]; rfl
    · rw [ht]; simpa using hv
  simp [shouldDeleteResource, hval]

/-- Witness for C1 at a concrete input: a resource carrying only an
unrelated tag is not deleted even under `AllClusters`. -/
theorem shouldDeleteResource_missing_or_empty_cluster_tag_witness :
    shouldDeleteResource 1000 ⟨"i-1", 0, [⟨"Name", "foo"⟩]⟩
      ⟨"", "", true, 5, false⟩ = false :=
  shouldDeleteResource_missing_or_empty_cluster_tag 1000 _ _ (Or.inl (by decide))

/-- C2: for a resource with a non-empty cluster tag value and an input with
non-empty `ClusterName`, `shouldDeleteResource` returns `true` exactly when
the cluster tag value equals `ClusterName`; the right-hand side mentions
neither the creation time, the clock, the age threshold, `AllClusters` nor
`ClusterNamePrefix`, so the result is independent of all of them. -/
theorem shouldDeleteResource_exact_cluster_name
    (now : Int) (resource : ResourceWithTags) (input : FilterInput)
    (htag : getClusterTagValue resource.tags ≠ "")
    (hname : input.clusterName ≠ "") :
    shouldDeleteResource now resource input
      = (getClusterTagValue resource.tags == input.clusterName) := by
  have h1 : (getClusterTagValue resource.tags == "") = false := by
    simp [htag]
  have h2 : (input.clusterName != "") = true := by
    simp [hname]
  simp [shouldDeleteResource, h1, h2]

/-- Witness for C2 at a concrete input: a resource created at the very
instant of evaluation (creation time = clock = 1000) with a matching tag is
still eligible. -/
theorem shouldDeleteResource_exact_cluster_name_witness :
    shouldDeleteResource 1000
      ⟨"i-1", 1000, [⟨"Nodeadm-E2E-Tests-Cluster", "my-cluster"⟩]⟩
      ⟨"my-cluster", "", false, 86400000000000, false⟩ = true := by
  rw [shouldDeleteResource_exact_cluster_name 1000 _ _ (by decide) (by decide)]
  decide

/-- C3: for a resource with a non-empty cluster tag value and an input with
empty `ClusterName`, `shouldDeleteResource` returns `true` iff
(`AllClusters`, or a non-empty `ClusterNamePrefix` that the tag value
starts with) and the elapsed age `now - CreationTime` strictly exceeds
`InstanceAgeThreshold`; at exact equality with the threshold the result is
`false`. -/
theorem shouldDeleteResource_age_mode_iff
    (now : Int) (resource : ResourceWithTags) (input : FilterInput)
    (htag : getClusterTagValue resource.tags ≠ "")
    (hname : input.clusterName = "") :
    (shouldDeleteResource now resource input = true ↔
      ((input.allClusters = true ∨
          (input.clusterNamePre ≠ "" ∧
            goHasPre (getClusterTagValue resource.tags) input.clusterNamePre = true))
        ∧ timeSince now resource.creationTime > input.instanceAgeThreshold))
    ∧ (timeSince now resource.creationTime = input.instanceAgeThreshold →
        shouldDeleteResource now resource input = false) := by
  rw [shouldDeleteResource_eq_age_check now resource input htag hname]
  constructor
  · simp [Bool.or_eq_true, Bool.and_eq_true]
  · intro heq
    rw [heq]
    simp

/-- Witness for C3 at concrete inputs: tag value "ci-123" with prefix "ci-",
threshold 50ns, resource aged 100ns is deleted; aged exactly 50ns it is not. -/
theorem shouldDeleteResource_age_mode_iff_witness :
    (shouldDeleteResource 100 ⟨"i-1", 0, [⟨"Nodeadm-E2E-Tests-Cluster", "ci-123"⟩]⟩
        ⟨"", "ci-", false, 50, false⟩ = true)
    ∧ (shouldDeleteResource 50 ⟨"i-1", 0, [⟨"Nodeadm-E2E-Tests-Cluster", "ci-123"⟩]⟩
        ⟨"", "ci-", false, 50, false⟩ = false) := by
  constructor
  · exact (shouldDeleteResource_age_mode_iff 100 _ _ (by decide) rfl).1.mpr
      (by exact ⟨Or.inr ⟨by decide, by decide⟩, by decide⟩)
  · exact (shouldDeleteResource_age_mode_iff 50 _ _ (by decide) rfl).2 (by decide)

/-- C7 counterexample: with the maximal positive threshold
(`maxDuration` = 2^63-1 ns, a representable `time.Duration`), a VPC-like
resource with the zero creation time is NOT deleted: `time.Since` saturates
at `maxDuration`, which is not strictly greater than the threshold.  The
clock value is any present-day instant (here 10^19 ns after the Go zero
time, i.e. well past the saturation bound). -/
theorem zero_creation_time_max_threshold_cex :
    shouldDeleteResource 10000000000000000000
      (vpcResource "vpc-1" [⟨"Nodeadm-E2E-Tests-Cluster", "x"⟩])
      ⟨"", "", true, 9223372036854775807, false⟩ = false := by
  decide

/-- C7 as amended: under age-filtering mode (empty `ClusterName`, with
`AllClusters` set or a matching `ClusterNamePrefix`), a resource with the
zero creation time is deleted for every positive `InstanceAgeThreshold`
STRICTLY BELOW the maximal `Duration` (2^63-1 ns), whenever the clock reads
an instant later than `maxDuration` nanoseconds after the Go zero time
(true of every realistic wall clock, which is ~2000 years past it); and
VPCs are constructed with exactly this zero creation time. -/
theorem zero_creation_time_age_eligible
    (now : Int) (resource : ResourceWithTags) (input : FilterInput)
    (hnow : now > maxDuration)
    (hct : resource.creationTime = goZeroTime)
    (htag : getClusterTagValue resource.tags ≠ "")
    (hname : input.clusterName = "")
    (hmode : input.allClusters = true ∨
      (input.clusterNamePre ≠ "" ∧
        goHasPre (getClusterTagValue resource.tags) input.clusterNamePre = true))
    (_hth : 0 < input.instanceAgeThreshold)
    (hthlt : input.instanceAgeThreshold < maxDuration) :
    shouldDeleteResource now resource input = true
    ∧ (∀ id tags, (vpcResource id tags).creationTime = goZeroTime) := by
  refine ⟨?_, fun id tags => rfl⟩
  rw [shouldDeleteResource_eq_age_check now resource input htag hname]
  have hsat : timeSince now resource.creationTime = maxDuration := by
    rw [hct]
    unfold timeSince timeSub goZeroTime
    simp only [Int.sub_zero]
    rw [if_pos hnow]
  have hgt : timeSince now resource.creationTime > input.instanceAgeThreshold := by
    rw [hsat]; exact hthlt
  have hcond : (input.allClusters ||
      (input.clusterNamePre != "" &&
        goHasPre (getClusterTagValue resource.tags) input.clusterNamePre)) = true := by
    rcases hmode with h | ⟨h1, h2⟩
    · simp [h]
    · simp [h1, h2]
  rw [hcond]
  simpa using hgt

/-- Witness for C7's amended theorem at a concrete input: clock at 10^19 ns,
threshold 24h, VPC resource tagged for cluster "x" under `AllClusters`. -/
theorem zero_creation_time_age_eligible_witness :
    shouldDeleteResource 10000000000000000000
      (vpcResource "vpc-1" [⟨"Nodeadm-E2E-Tests-Cluster", "x"⟩])
      ⟨"", "", true, 86400000000000, false⟩ = true
    ∧ (∀ id tags, (vpcResource id tags).creationTime = goZeroTime) :=
  zero_creation_time_age_eligible 10000000000000000000
    (vpcResource "vpc-1" [⟨"Nodeadm-E2E-Tests-Cluster", "x"⟩])
    ⟨"", "", true, 86400000000000, false⟩
    (by decide) rfl (by decide) rfl (Or.inl rfl) (by decide) (by decide)

/-- C8: the cheap pre-check agrees with the spec — with non-empty
`ClusterName` it returns `true` regardless of age, otherwise it is exactly
the strict threshold comparison — and it is implied by the authoritative
decision: whenever `shouldDeleteResource` is `true` at the same instant,
`resourceOldEnough` is `true` as well. -/
theorem resourceOldEnough_consistency
    (now : Int) (resource : ResourceWithTags) (input : FilterInput) :
    resourceOldEnough now resource.creationTime input
      = ((input.clusterName != "")
          || decide (timeSince now resource.creationTime > input.instanceAgeThreshold))
    ∧ (shouldDeleteResource now resource input = true →
        resourceOldEnough now resource.creationTime input = true) := by
  constructor
  · unfold resourceOldEnough
    cases h : (input.clusterName != "") <;> simp
  · intro hdel
    unfold shouldDeleteResource at hdel
    by_cases h0 : (getClusterTagValue resource.tags == "") = true
    · rw [if_pos h0] at hdel; exact absurd hdel (by simp)
    · rw [if_neg h0] at hdel
      by_cases h1 : (input.clusterName != "") = true
      · unfold resourceOldEnough
        rw [if_pos h1]
      · rw [if_neg h1] at hdel
        by_cases h2 : (input.allClusters ||
            (input.clusterNamePre != "" &&
              goHasPre (getClusterTagValue resource.tags) input.clusterNamePre)) = true
        · rwa [if_pos h2] at hdel
        · rw [if_neg h2] at hdel; exact absurd hdel (by simp)

/-- Witness for C8 at a concrete input where the authoritative decision
fires: the pre-check equation holds and the implication's conclusion is
reached from a `decide`-discharged premise. -/
theorem resourceOldEnough_consistency_witness :
    (resourceOldEnough 100 0 ⟨"", "ci-", false, 50, false⟩
      = ((("" : String) != "") || decide (timeSince 100 0 > (50 : Int))))
    ∧ resourceOldEnough 100 0 ⟨"", "ci-", false, 50, false⟩ = true :=
  ⟨(resourceOldEnough_consistency 100
      ⟨"i-1", 0, [⟨"Nodeadm-E2E-Tests-Cluster", "ci-123"⟩]⟩
      ⟨"", "ci-", false, 50, false⟩).1,
   (resourceOldEnough_consistency 100
      ⟨"i-1", 0, [⟨"Nodeadm-E2E-Tests-Cluster", "ci-123"⟩]⟩
      ⟨"", "ci-", false, 50, false⟩).2 (by decide)⟩

theorem cleanupSSMManagedInstances_calls (env : SweeperEnv) (fi : FilterInput) :
    (cleanupSSMManagedInstances env fi).1 = [SSMCall.listManagedInstances]
    ∨ ∃ ids, (cleanupSSMManagedInstances env fi).1
        = [SSMCall.listManagedInstances, SSMCall.deleteManagedInstances ids] := by
  cases hl : env.listManagedInstancesResult with
  | error e => left; simp [cleanupSSMManagedInstances, hl]
  | ok ids =>
    by_cases hd : fi.dryRun = true
    · left; simp [cleanupSSMManagedInstances, hl, hd]
    · cases hdel : env.deleteManagedInstancesResult with
      | none => right; exact ⟨ids, by simp [cleanupSSMManagedInstances, hl, hd, hdel]⟩
      | some e => right; exact ⟨ids, by simp [cleanupSSMManagedInstances, hl, hd, hdel]⟩

theorem cleanupSSMManagedInstances_calls_kinds (env : SweeperEnv) (fi : FilterInput) :
    ∀ c ∈ (cleanupSSMManagedInstances env fi).1,
      c = SSMCall.listManagedInstances ∨ ∃ ids, c = SSMCall.deleteManagedInstances ids := by
  intro c hc
  rcases cleanupSSMManagedInstances_calls env fi with h | ⟨ids, h⟩ <;> rw [h] at hc <;>
    simp at hc
  · exact Or.inl hc
  · rcases hc with hc | hc
    · exact Or.inl hc
    · exact Or.inr ⟨ids, hc⟩

/-- C4 counterexample: a run in which the managed-instance phase fails
(listing error "e1") while the hybrid-activation phase would also fail
(listing error "e2").  `Run` returns only the first phase's wrapped error —
not a join of both — and makes no hybrid-activation collaborator call at
all, refuting the claim that both phases run and their errors are joined. -/
theorem sweeperRun_not_joined_cex :
    sweeperRun ⟨.error "e1", .error "e2", none, none⟩ ⟨false, false, "", "", 86400000000000⟩
      = ([SSMCall.listManagedInstances],
          some "cleaning up SSM managed instances: listing managed instances: e1")
    ∧ SSMCall.listActivations ∉
        (sweeperRun ⟨.error "e1", .error "e2", none, none⟩
          ⟨false, false, "", "", 86400000000000⟩).1 := by
  constructor
  · rfl
  · decide

/-- C4 as amended: `Sweeper.Run` short-circuits.  When the managed-instance
phase fails, its wrapped error alone is returned and no collaborator call
of the hybrid-activation phase is made; only when the first phase succeeds
does the second phase run, and then the result is the second phase's error
(wrapped, if any).  Joining of the two top-level cleanup errors happens in
the calling cleanup command, not in `Run`. -/
theorem sweeperRun_short_circuits (env : SweeperEnv) (input : SweeperInput) :
    (∀ e, (cleanupSSMManagedInstances env (filterInputOf input)).2 = some e →
      sweeperRun env input
        = ((cleanupSSMManagedInstances env (filterInputOf input)).1,
            some ("cleaning up SSM managed instances: " ++ e))
      ∧ SSMCall.listActivations ∉ (sweeperRun env input).1
      ∧ ∀ ids, SSMCall.deleteActivations ids ∉ (sweeperRun env input).1)
    ∧ ((cleanupSSMManagedInstances env (filterInputOf input)).2 = none →
      sweeperRun env input
        = ((cleanupSSMManagedInstances env (filterInputOf input)).1
            ++ (cleanupSSMHybridActivations env (filterInputOf input)).1,
            (cleanupSSMHybridActivations env (filterInputOf input)).2.map
              (fun e => "cleaning up SSM hybrid activations: " ++ e))) := by
  constructor
  · intro e he
    have hsplit : cleanupSSMManagedInstances env (filterInputOf input)
        = ((cleanupSSMManagedInstances env (filterInputOf input)).1, some e) := by
      rw [← he]
    have hrun : sweeperRun env input
        = ((cleanupSSMManagedInstances env (filterInputOf input)).1,
            some ("cleaning up SSM managed instances: " ++ e)) := by
      unfold sweeperRun
      rw [hsplit]
    refine ⟨hrun, ?_, ?_⟩
    · rw [hrun]
      intro hmem
      rcases cleanupSSMManagedInstances_calls_kinds env (filterInputOf input) _ hmem with
        h | ⟨ids, h⟩ <;> simp at h
    · intro ids
      rw [hrun]
      intro hmem
      rcases cleanupSSMManagedInstances_calls_kinds env (filterInputOf input) _ hmem with
        h | ⟨ids', h⟩ <;> simp at h
  · intro hnone
    have hsplit : cleanupSSMManagedInstances env (filterInputOf input)
        = ((cleanupSSMManagedInstances env (filterInputOf input)).1, none) := by
      rw [← hnone]
    unfold sweeperRun
    rw [hsplit]
    cases hd : cleanupSSMHybridActivations env (filterInputOf input) with
    | mk calls2 r2 => cases r2 <;> simp

/-- Witness for C4's amended theorem: with the managed-instance listing
failing and the activation listing also set to fail, the run returns the
first phase's wrapped error and never touches the activation phase. -/
theorem sweeperRun_short_circuits_witness :
    sweeperRun ⟨.error "w1", .error "w2", none, none⟩ ⟨true, false, "", "", 5⟩
      = ([SSMCall.listManagedInstances],
          some "cleaning up SSM managed instances: listing managed instances: w1")
    ∧ SSMCall.listActivations ∉
        (sweeperRun ⟨.error "w1", .error "w2", none, none⟩ ⟨true, false, "", "", 5⟩).1
    ∧ ∀ ids, SSMCall.deleteActivations ids ∉
        (sweeperRun ⟨.error "w1", .error "w2", none, none⟩ ⟨true, false, "", "", 5⟩).1 :=
  (sweeperRun_short_circuits ⟨.error "w1", .error "w2", none, none⟩
    ⟨true, false, "", "", 5⟩).1 "listing managed instances: w1" (by decide)

/-- C9: with `DryRun` set and both listings succeeding, the run makes
exactly the two listing calls — no delete or deregister call, so no
state-changing collaborator call at all — and returns success. -/
theorem sweeperRun_dryRun_no_deletes (env : SweeperEnv) (input : SweeperInput)
    (hdry : input.dryRun = true)
    (ids1 ids2 : List String)
    (h1 : env.listManagedInstancesResult = .ok ids1)
    (h2 : env.listActivationsResult = .ok ids2) :
    sweeperRun env input
      = ([SSMCall.listManagedInstances, SSMCall.listActivations], none) := by
  have hfi : (filterInputOf input).dryRun = true := hdry
  have hp1 : cleanupSSMManagedInstances env (filterInputOf input)
      = ([SSMCall.listManagedInstances], none) := by
    simp [cleanupSSMManagedInstances, h1, hfi]
  have hp2 : cleanupSSMHybridActivations env (filterInputOf input)
      = ([SSMCall.listActivations], none) := by
    simp [cleanupSSMHybridActivations, h2, hfi]
  unfold sweeperRun
  rw [hp1, hp2]
  rfl

/-- Witness for C9 at a concrete input: one candidate instance and one
candidate activation, dry run — only the two listing calls happen. -/
theorem sweeperRun_dryRun_no_deletes_witness :
    sweeperRun ⟨.ok ["mi-1"], .ok ["a-1"], none, none⟩ ⟨false, true, "", "", 5⟩
      = ([SSMCall.listManagedInstances, SSMCall.listActivations], none) :=
  sweeperRun_dryRun_no_deletes ⟨.ok ["mi-1"], .ok ["a-1"], none, none⟩
    ⟨false, true, "", "", 5⟩ rfl ["mi-1"] ["a-1"] rfl rfl

theorem removeRole_foldl_keys (roleName : String) (ps : List String) (acc : IAMState) :
    ((ps.foldl (fun a p => removeRoleFromInstanceProfile a roleName p) acc).roles.map
        Prod.fst)
      = acc.roles.map Prod.fst := by
  induction ps generalizing acc with
  | nil => rfl
  | cons p rest ih =>
    rw [List.foldl_cons, ih]
    unfold removeRoleFromInstanceProfile
    rw [List.map_map]
    apply List.map_congr_left
    intro r _
    by_cases h : r.1 = roleName <;> simp [h]

theorem deleteRole_err_none (s : IAMState) (roleName : String) :
    (IAMCleaner.DeleteRole s roleName).2 = none := by
  unfold IAMCleaner.DeleteRole
  cases hf : s.roles.find? (fun r => r.1 == roleName) with
  | none => simp [listInstanceProfilesForRole, hf]
  | some r =>
    simp only [listInstanceProfilesForRole, hf]
    have hmem : r ∈ s.roles := List.mem_of_find?_eq_some hf
    have hpred : (r.1 == roleName) = true := by
      have hp := List.find?_some hf
      simpa using hp
    have hkeys := removeRole_foldl_keys roleName r.2 s
    have hany : ((r.2.foldl (fun a p => removeRoleFromInstanceProfile a roleName p)
        s).roles.any (fun x => x.1 == roleName)) = true := by
      rw [List.any_eq_true]
      have : roleName ∈ (r.2.foldl (fun a p => removeRoleFromInstanceProfile a roleName p)
          s).roles.map Prod.fst := by
        rw [hkeys]
        rw [List.mem_map]
        exact ⟨r, hmem, by simpa using hpred⟩
      rw [List.mem_map] at this
      obtain ⟨x, hx, hfst⟩ := this
      exact ⟨x, hx, by simp [hfst]⟩
    have hapi : deleteRoleApi
        (r.2.foldl (fun a p => removeRoleFromInstanceProfile a roleName p) s) roleName
        = ({ roles := (r.2.foldl (fun a p => removeRoleFromInstanceProfile a roleName p)
              s).roles.filter (fun x => x.1 != roleName) }, none) := by
      unfold deleteRoleApi
      rw [if_pos hany]
    rw [hapi]

theorem deleteActivation_err_none (s : SSMState) (id : String) :
    (SSMCleaner.DeleteActivation s id).2 = none := by
  by_cases h : id ∈ s.activations <;>
    simp [SSMCleaner.DeleteActivation, deleteActivationApi, h]

theorem deleteManagedInstance_err_none (s : SSMState) (id : String) :
    (SSMCleaner.DeleteManagedInstance s id).2 = none := by
  by_cases h : id ∈ s.managedInstances <;>
    simp [SSMCleaner.DeleteManagedInstance, deregisterManagedInstanceApi, h]

theorem deleteParameter_err_none (s : SSMState) (name : String) :
    (SSMCleaner.DeleteParameter s name).2 = none := by
  by_cases h : name ∈ s.parameters <;>
    simp [SSMCleaner.DeleteParameter, deleteParameterApi, h]

theorem raDeleteProfile_err_none (s : RAState) (id : String) :
    (RolesAnywhereCleaner.DeleteProfile s id).2 = none := by
  by_cases h : id ∈ s.profiles <;>
    simp [RolesAnywhereCleaner.DeleteProfile, deleteProfileApi, h]

theorem raDeleteTrustAnchor_err_none (s : RAState) (id : String) :
    (RolesAnywhereCleaner.DeleteTrustAnchor s id).2 = none := by
  by_cases h : id ∈ s.trustAnchors <;>
    simp [RolesAnywhereCleaner.DeleteTrustAnchor, deleteTrustAnchorApi, h]

/-- C5 counterexample: for the Roles Anywhere `DeleteProfile` variant at
rolesanywhere.go lines 73-82 (first document), the second of two
consecutive calls on the same profile fails: the underlying API reports the
profile already absent with `ResourceNotFoundException`, and this wrapper
propagates the error instead of treating it as success, refuting the claim
for that operation. -/
theorem legacy_deleteProfile_not_idempotent_cex :
    ((RolesAnywhereCleanerV1.DeleteProfile ⟨["p-1"], []⟩ "p-1").2 = none)
    ∧ ((RolesAnywhereCleanerV1.DeleteProfile
          (RolesAnywhereCleanerV1.DeleteProfile ⟨["p-1"], []⟩ "p-1").1 "p-1").2
        = some "deleting roles anywhere profile p-1: ResourceNotFoundException") := by
  constructor <;> rfl

/-- C5 as amended: `DeleteRole`, `DeleteActivation`, `DeleteManagedInstance`,
`DeleteParameter`, and the second-document Roles Anywhere `DeleteProfile` /
`DeleteTrustAnchor` all tolerate the not-found answer of the underlying
API, so two consecutive calls on any state both succeed; the first-document
Roles Anywhere variants (rolesanywhere.go lines 73-82 and 136-145) do NOT:
on an absent target they propagate the not-found error. -/
theorem delete_ops_idempotent :
    (∀ s roleName, (IAMCleaner.DeleteRole s roleName).2 = none
      ∧ (IAMCleaner.DeleteRole (IAMCleaner.DeleteRole s roleName).1 roleName).2 = none)
    ∧ (∀ s id, (SSMCleaner.DeleteActivation s id).2 = none
      ∧ (SSMCleaner.DeleteActivation (SSMCleaner.DeleteActivation s id).1 id).2 = none)
    ∧ (∀ s id, (SSMCleaner.DeleteManagedInstance s id).2 = none
      ∧ (SSMCleaner.DeleteManagedInstance
          (SSMCleaner.DeleteManagedInstance s id).1 id).2 = none)
    ∧ (∀ s name, (SSMCleaner.DeleteParameter s name).2 = none
      ∧ (SSMCleaner.DeleteParameter (SSMCleaner.DeleteParameter s name).1 name).2 = none)
    ∧ (∀ s id, (RolesAnywhereCleaner.DeleteProfile s id).2 = none
      ∧ (RolesAnywhereCleaner.DeleteProfile
          (RolesAnywhereCleaner.DeleteProfile s id).1 id).2 = none)
    ∧ (∀ s id, (RolesAnywhereCleaner.DeleteTrustAnchor s id).2 = none
      ∧ (RolesAnywhereCleaner.DeleteTrustAnchor
          (RolesAnywhereCleaner.DeleteTrustAnchor s id).1 id).2 = none)
    ∧ ((RolesAnywhereCleanerV1.DeleteProfile ⟨[], []⟩ "p-1").2 ≠ none)
    ∧ ((RolesAnywhereCleanerV1.DeleteTrustAnchor ⟨[], []⟩ "t-1").2 ≠ none) :=
  ⟨fun s r => ⟨deleteRole_err_none s r, deleteRole_err_none _ r⟩,
   fun s i => ⟨deleteActivation_err_none s i, deleteActivation_err_none _ i⟩,
   fun s i => ⟨deleteManagedInstance_err_none s i, deleteManagedInstance_err_none _ i⟩,
   fun s n => ⟨deleteParameter_err_none s n, deleteParameter_err_none _ n⟩,
   fun s i => ⟨raDeleteProfile_err_none s i, raDeleteProfile_err_none _ i⟩,
   fun s i => ⟨raDeleteTrustAnchor_err_none s i, raDeleteTrustAnchor_err_none _ i⟩,
   by decide, by decide⟩

/-- Witness for C5's amended theorem at concrete states: deleting an
existing IAM role succeeds, and the first-document Roles Anywhere
`DeleteProfile` fails on an absent profile. -/
theorem delete_ops_idempotent_witness :
    (IAMCleaner.DeleteRole ⟨[("role-1", ["prof-1"])]⟩ "role-1").2 = none
    ∧ (RolesAnywhereCleanerV1.DeleteProfile ⟨[], []⟩ "p-1").2 ≠ none :=
  ⟨(delete_ops_idempotent.1 ⟨[("role-1", ["prof-1"])]⟩ "role-1").1,
   delete_ops_idempotent.2.2.2.2.2.2.1⟩

theorem goSplit_cons (sep c : Char) (cs : List Char) :
    goSplit sep (c :: cs)
      = if c = sep then [] :: goSplit sep cs
        else match goSplit sep cs with
          | [] => [[c]]
          | seg :: segs => (c :: seg) :: segs := rfl

theorem isSome_map_eq {α β : Type} (f : α → β) (x : Option α) :
    (x.map f).isSome = x.isSome := by
  cases x <;> rfl

theorem goSplit_ne_nil (sep : Char) (l : List Char) : goSplit sep l ≠ [] := by
  induction l with
  | nil => simp [goSplit]
  | cons c cs ih =>
    unfold goSplit
    by_cases h : c = sep
    · simp [h]
    · rw [if_neg h]
      cases hs : goSplit sep cs with
      | nil => simp
      | cons seg segs => simp

theorem goSplit_last_isSome (sep : Char) (l : List Char) :
    ((goSplit sep l).get? ((goSplit sep l).length - 1)).isSome = true := by
  have hpos : 0 < (goSplit sep l).length :=
    List.length_pos.mpr (goSplit_ne_nil sep l)
  have hlt : (goSplit sep l).length - 1 < (goSplit sep l).length :=
    Nat.sub_lt hpos Nat.one_pos
  rw [List.get?_eq_get hlt]
  rfl

theorem goSplit_head (sep : Char) (l : List Char) :
    (goSplit sep l).get? 0 = some (l.takeWhile (fun c => c != sep)) := by
  induction l with
  | nil => rfl
  | cons c cs ih =>
    unfold goSplit
    by_cases h : c = sep
    · simp [h, List.takeWhile]
    · rw [if_neg h]
      cases hs : goSplit sep cs with
      | nil => exact absurd hs (goSplit_ne_nil sep cs)
      | cons seg segs =>
        rw [hs] at ih
        simp only [List.get?] at ih
        simp only [List.get?, List.takeWhile]
        have hb : (c != sep) = true := by simp [h]
        rw [hb]
        simp only [Option.some.injEq] at ih ⊢
        rw [ih]

theorem goSplit_of_not_mem (sep : Char) (l : List Char) (h : sep ∉ l) :
    goSplit sep l = [l] := by
  induction l with
  | nil => rfl
  | cons c cs ih =>
    have hc : c ≠ sep := fun hcc => h (hcc ▸ List.mem_cons_self c cs)
    have hcs : sep ∉ cs := fun hm => h (List.mem_cons_of_mem c hm)
    unfold goSplit
    rw [if_neg hc, ih hcs]

theorem goSplit_of_mem (sep : Char) (l : List Char) (h : sep ∈ l) :
    goSplit sep l
      = l.takeWhile (fun c => c != sep)
        :: goSplit sep ((l.dropWhile (fun c => c != sep)).tail) := by
  induction l with
  | nil => cases h
  | cons c cs ih =>
    rw [goSplit_cons]
    by_cases hc : c = sep
    · subst hc
      rw [if_pos rfl]
      have hb : (c != c) = false := by simp
      simp [List.takeWhile_cons, List.dropWhile_cons, hb]
    · have hcs : sep ∈ cs := by
        rcases List.mem_cons.mp h with h1 | h1
        · exact absurd h1.symm hc
        · exact h1
      have hb : (c != sep) = true := by simp [hc]
      rw [if_neg hc, ih hcs]
      simp [List.takeWhile_cons, List.dropWhile_cons, hb]

/-- C10 counterexample: on the six-segment ARN
"arn:aws:eks:us-west-2:123456789012:cluster" (no "/" in the sixth segment)
the Go code evaluates `parts[1]` of a one-element slice and panics
(modelled as `none`) instead of returning a string; and on a sixth segment
with two slashes, "cluster/a/b", the code returns "a" — the portion between
the first and second "/" — not the whole portion "a/b" after the first "/"
as the claim states. -/
theorem extractClusterName_panics_cex :
    extractClusterName "arn:aws:eks:us-west-2:123456789012:cluster" = none
    ∧ extractClusterName "arn:aws:eks:us-west-2:123456789012:cluster/a/b"
        = some "a" := by
  constructor <;> rfl

/-- C10 as amended: `managedInstanceIDFromARN`, `parameterNameFromARN` and
`parseResourceIdFromARN` are total (a Go split always yields at least one
segment, so the last-index access cannot panic); `extractClusterName`
returns "" for any input with fewer than six colon-separated segments, but
for six or more it panics (modelled as `none`) exactly when the sixth
segment contains no "/" — its guard `len(parts) < 1` never fires — and
otherwise returns the portion of the sixth segment after its first "/" and
before the next "/". -/
theorem arn_helpers_totality
    (arn : String) :
    (managedInstanceIDFromARN arn).isSome = true
    ∧ (parameterNameFromARN arn).isSome = true
    ∧ (parseResourceIdFromARN arn).isSome = true
    ∧ ((goSplit ':' arn.data).length < 6 → extractClusterName arn = some "")
    ∧ (∀ seg, 6 ≤ (goSplit ':' arn.data).length →
        (goSplit ':' arn.data).getD 5 [] = seg →
        ((('/' : Char) ∉ seg → extractClusterName arn = none)
          ∧ (('/' : Char) ∈ seg → extractClusterName arn
              = some (String.mk
                  (((seg.dropWhile (fun c => c != '/')).tail).takeWhile
                    (fun c => c != '/')))))) := by
  refine ⟨?_, ?_, ?_, ?_, ?_⟩
  · unfold managedInstanceIDFromARN
    rw [isSome_map_eq]
    exact goSplit_last_isSome '/' arn.data
  · unfold parameterNameFromARN
    rw [isSome_map_eq]
    exact goSplit_last_isSome ':' arn.data
  · unfold parseResourceIdFromARN
    rw [isSome_map_eq]
    exact goSplit_last_isSome '/' arn.data
  · intro hlen
    unfold extractClusterName
    rw [if_pos hlen]
  · intro seg hlen hseg
    have hnotlt : ¬ (goSplit ':' arn.data).length < 6 := Nat.not_lt.mpr hlen
    constructor
    · intro hnm
      unfold extractClusterName
      rw [if_neg hnotlt]
      have hsplit2 : goSplit '/' ((goSplit ':' arn.data).getD 5 []) = [seg] := by
        rw [hseg]
        exact goSplit_of_not_mem '/' seg hnm
      rw [hsplit2]
      rfl
    · intro hm
      unfold extractClusterName
      rw [if_neg hnotlt]
      have hsplit2 : goSplit '/' ((goSplit ':' arn.data).getD 5 [])
          = seg.takeWhile (fun c => c != '/')
            :: goSplit '/' ((seg.dropWhile (fun c => c != '/')).tail) := by
        rw [hseg]
        exact goSplit_of_mem '/' seg hm
      rw [hsplit2]
      have hlen2 : ¬ (seg.takeWhile (fun c => c != '/')
          :: goSplit '/' ((seg.dropWhile (fun c => c != '/')).tail)).length < 1 := by
        simp
      rw [if_neg hlen2]
      have hget : (seg.takeWhile (fun c => c != '/')
          :: goSplit '/' ((seg.dropWhile (fun c => c != '/')).tail)).get? 1
          = some (((seg.dropWhile (fun c => c != '/')).tail).takeWhile
              (fun c => c != '/')) := by
        simp only [List.get?]
        exact goSplit_head '/' ((seg.dropWhile (fun c => c != '/')).tail)
      rw [hget]
      rfl

/-- Witness for C10's amended theorem at concrete ARNs: the real
managed-instance ARN parses, a five-segment ARN yields "", a six-segment
ARN without "/" panics, and the documented EKS cluster ARN yields the
cluster name. -/
theorem arn_helpers_totality_witness :
    (managedInstanceIDFromARN
        "arn:aws:ssm:us-west-2:736510011942:managed-instance/mi-0f2d0b4c974837b23").isSome
        = true
    ∧ extractClusterName "arn:aws:eks:us-west-2:123456789012" = some ""
    ∧ extractClusterName "arn:aws:eks:us-west-2:123456789012:nodeadm" = none
    ∧ extractClusterName "arn:aws:eks:us-west-2:123456789012:cluster/nodeadm-e2e-tests-1-31"
        = some "nodeadm-e2e-tests-1-31" :=
  ⟨(arn_helpers_totality
      "arn:aws:ssm:us-west-2:736510011942:managed-instance/mi-0f2d0b4c974837b23").1,
   (arn_helpers_totality "arn:aws:eks:us-west-2:123456789012").2.2.2.1 (by decide),
   ((arn_helpers_totality "arn:aws:eks:us-west-2:123456789012:nodeadm").2.2.2.2
      "nodeadm".data (by decide) (by decide)).1 (by decide),
   ((arn_helpers_totality
        "arn:aws:eks:us-west-2:123456789012:cluster/nodeadm-e2e-tests-1-31").2.2.2.2
      "cluster/nodeadm-e2e-tests-1-31".data (by decide) (by decide)).2 (by decide)⟩

theorem stepIdx_le_five (c : EC2Call) : stepIdx c ≤ 5 := by
  cases c <;> simp [stepIdx]

theorem stepIdx_of_isRevoke {c : EC2Call} (h : isRevoke c = true) : stepIdx c = 4 := by
  cases c <;> simp [isRevoke] at h <;> rfl

theorem callFails_eq_false (faults : List EC2Call)
    (hf : ∀ c ∈ faults, isRevoke c = true) {c : EC2Call} (hc : isRevoke c = false) :
    callFails faults c = false := by
  by_contra h
  rw [Bool.not_eq_false] at h
  have hmem : c ∈ faults := by
    unfold callFails at h
    simpa using h
  rw [hf c hmem] at hc
  cases hc

theorem goHasPre_append (p rest : String) : goHasPre (p ++ rest) p = true := by
  unfold goHasPre
  rw [String.data_append]
  rw [ List.isPrefixOf_iff_prefix]
  exact List.prefix_append p.data rest.data

theorem igwLoop_allIdx (faults : List EC2Call) (vpcID : String) :
    ∀ (igws : List String) (s : EC2State) (c : EC2Call),
      c ∈ (igwLoop faults vpcID igws s).2.1 → stepIdx c = 1 := by
  intro igws
  induction igws with
  | nil => intro s c hc; simp [igwLoop] at hc
  | cons igwID rest ih =>
    intro s c hc
    simp only [igwLoop] at hc
    split at hc
    · simp at hc; subst hc; rfl
    · split at hc
      · simp at hc
        rcases hc with hc | hc <;> (subst hc; rfl)
      · simp at hc
        rcases hc with hc | hc | hc
        · subst hc; rfl
        · subst hc; rfl
        · exact ih _ c hc

theorem deleteInternetGateways_allIdx (faults : List EC2Call) (s : EC2State)
    (vpcID : String) :
    ∀ c ∈ (deleteInternetGateways faults s vpcID).2.1, stepIdx c = 1 := by
  intro c hc
  simp only [deleteInternetGateways] at hc
  split at hc
  · simp at hc; subst hc; rfl
  · simp at hc
    rcases hc with hc | hc
    · subst hc; rfl
    · exact igwLoop_allIdx faults vpcID _ s c hc

theorem subnetLoop_allIdx (faults : List EC2Call) (vpcID : String) :
    ∀ (subnets : List String) (s : EC2State) (c : EC2Call),
      c ∈ (subnetLoop faults vpcID subnets s).2.1 → stepIdx c = 2 := by
  intro subnets
  induction subnets with
  | nil => intro s c hc; simp [subnetLoop] at hc
  | cons subnetID rest ih =>
    intro s c hc
    simp only [subnetLoop] at hc
    split at hc
    · simp at hc; subst hc; rfl
    · simp at hc
      rcases hc with hc | hc
      · subst hc; rfl
      · exact ih _ c hc

theorem deleteSubnets_allIdx (faults : List EC2Call) (s : EC2State) (vpcID : String) :
    ∀ c ∈ (deleteSubnets faults s vpcID).2.1, stepIdx c = 2 := by
  intro c hc
  simp only [deleteSubnets] at hc
  split at hc
  · simp at hc; subst hc; rfl
  · simp at hc
    rcases hc with hc | hc
    · subst hc; rfl
    · exact subnetLoop_allIdx faults vpcID _ s c hc

theorem assocLoop_allIdx (faults : List EC2Call) (vpcID rtID : String) :
    ∀ (assocs : List RTAssoc) (s : EC2State) (c : EC2Call),
      c ∈ (assocLoop faults vpcID rtID assocs s).2.1 → stepIdx c = 3 := by
  intro assocs
  induction assocs with
  | nil => intro s c hc; simp [assocLoop] at hc
  | cons a rest ih =>
    intro s c hc
    simp only [assocLoop] at hc
    split at hc
    · exact ih _ c hc
    · rename_i aid
      split at hc
      · simp at hc; subst hc; rfl
      · simp at hc
        rcases hc with hc | hc
        · subst hc; rfl
        · exact ih _ c hc

theorem rtLoop_allIdx (faults : List EC2Call) (vpcID mainID : String) :
    ∀ (rts : List RouteTable) (s : EC2State) (c : EC2Call),
      c ∈ (rtLoop faults vpcID mainID rts s).2.1 → stepIdx c = 3 := by
  intro rts
  induction rts with
  | nil => intro s c hc; simp [rtLoop] at hc
  | cons rt rest ih =>
    intro s c hc
    simp only [rtLoop] at hc
    split at hc
    · exact ih _ c hc
    · split at hc
      · rename_i s1 calls1 e hres
        exact assocLoop_allIdx faults vpcID rt.rtId rt.assocs s c (by rw [hres]; exact hc)
      · rename_i s1 calls1 hres
        split at hc
        · simp at hc
          rcases hc with hc | hc
          · exact assocLoop_allIdx faults vpcID rt.rtId rt.assocs s c
              (by rw [hres]; exact hc)
          · subst hc; rfl
        · simp at hc
          rcases hc with hc | hc | hc
          · exact assocLoop_allIdx faults vpcID rt.rtId rt.assocs s c
              (by rw [hres]; exact hc)
          · subst hc; rfl
          · exact ih _ c hc

theorem deleteRouteTables_allIdx (faults : List EC2Call) (s : EC2State) (vpcID : String) :
    ∀ c ∈ (deleteRouteTables faults s vpcID).2.1, stepIdx c = 3 := by
  intro c hc
  simp only [deleteRouteTables] at hc
  split at hc
  · simp at hc; subst hc; rfl
  · split at hc
    · simp at hc
      rcases hc with hc | hc <;> (subst hc; rfl)
    · simp at hc
      rcases hc with hc | hc | hc
      · subst hc; rfl
      · subst hc; rfl
      · exact rtLoop_allIdx faults vpcID _ _ s c hc

theorem revokeCallsFor_isRevoke (sg : SecurityGroup) :
    ∀ c ∈ revokeCallsFor sg, isRevoke c = true := by
  intro c hc
  unfold revokeCallsFor at hc
  rcases List.mem_append.mp hc with h | h <;>
    (split at h <;> simp at h) <;> (subst h; rfl)

theorem revokeLoop_allIdx (faults : List EC2Call) (vpcID : String) :
    ∀ (sgs : List SecurityGroup) (s : EC2State) (c : EC2Call),
      c ∈ (revokeLoop faults vpcID sgs s).2 → stepIdx c = 4 := by
  intro sgs
  induction sgs with
  | nil => intro s c hc; simp [revokeLoop] at hc
  | cons sg rest ih =>
    intro s c hc
    simp only [revokeLoop] at hc
    split at hc
    · exact ih _ c hc
    · simp at hc
      rcases hc with hc | hc
      · exact stepIdx_of_isRevoke (revokeCallsFor_isRevoke sg c hc)
      · exact ih _ c hc

theorem sgDeleteLoop_allIdx (faults : List EC2Call) (vpcID : String) :
    ∀ (sgs : List SecurityGroup) (s : EC2State) (c : EC2Call),
      c ∈ (sgDeleteLoop faults vpcID sgs s).2.1 → stepIdx c = 4 := by
  intro sgs
  induction sgs with
  | nil => intro s c hc; simp [sgDeleteLoop] at hc
  | cons sg rest ih =>
    intro s c hc
    simp only [sgDeleteLoop] at hc
    split at hc
    · exact ih _ c hc
    · split at hc
      · simp at hc; subst hc; rfl
      · simp at hc
        rcases hc with hc | hc
        · subst hc; rfl
        · exact ih _ c hc

theorem deleteSecurityGroups_allIdx (faults : List EC2Call) (s : EC2State)
    (vpcID : String) :
    ∀ c ∈ (deleteSecurityGroups faults s vpcID).2.1, stepIdx c = 4 := by
  intro c hc
  simp only [deleteSecurityGroups] at hc
  split at hc
  · simp at hc; subst hc; rfl
  · simp at hc
    rcases hc with hc | hc | hc
    · subst hc; rfl
    · exact revokeLoop_allIdx faults vpcID _ s c hc
    · exact sgDeleteLoop_allIdx faults vpcID _ _ c hc

theorem deleteVPCStep_calls (faults : List EC2Call) (s : EC2State) (vpcID : String) :
    (deleteVPCStep faults s vpcID).2.1 = [EC2Call.deleteVpc vpcID] := by
  unfold deleteVPCStep
  split <;> rfl

theorem igwLoop_err_none (faults : List EC2Call) (vpcID : String)
    (hf : ∀ c ∈ faults, isRevoke c = true) :
    ∀ (igws : List String) (s : EC2State), (igwLoop faults vpcID igws s).2.2 = none := by
  intro igws
  induction igws with
  | nil => intro s; rfl
  | cons igwID rest ih =>
    intro s
    have h1 : callFails faults (EC2Call.detachInternetGateway igwID vpcID) = false :=
      callFails_eq_false faults hf rfl
    have h2 : callFails faults (EC2Call.deleteInternetGateway igwID) = false :=
      callFails_eq_false faults hf rfl
    simp [igwLoop, h1, h2, ih]

theorem deleteInternetGateways_err_none (faults : List EC2Call) (s : EC2State)
    (vpcID : String) (hf : ∀ c ∈ faults, isRevoke c = true) :
    (deleteInternetGateways faults s vpcID).2.2 = none := by
  have h0 : callFails faults (EC2Call.describeInternetGateways vpcID) = false :=
    callFails_eq_false faults hf rfl
  simp [deleteInternetGateways, h0, igwLoop_err_none faults vpcID hf]

theorem subnetLoop_err_none (faults : List EC2Call) (vpcID : String)
    (hf : ∀ c ∈ faults, isRevoke c = true) :
    ∀ (subnets : List String) (s : EC2State),
      (subnetLoop faults vpcID subnets s).2.2 = none := by
  intro subnets
  induction subnets with
  | nil => intro s; rfl
  | cons subnetID rest ih =>
    intro s
    have h1 : callFails faults (EC2Call.deleteSubnet subnetID) = false :=
      callFails_eq_false faults hf rfl
    simp [subnetLoop, h1, ih]

theorem deleteSubnets_err_none (faults : List EC2Call) (s : EC2State)
    (vpcID : String) (hf : ∀ c ∈ faults, isRevoke c = true) :
    (deleteSubnets faults s vpcID).2.2 = none := by
  have h0 : callFails faults (EC2Call.describeSubnets vpcID) = false :=
    callFails_eq_false faults hf rfl
  simp [deleteSubnets, h0, subnetLoop_err_none faults vpcID hf]

theorem assocLoop_err_none (faults : List EC2Call) (vpcID rtID : String)
    (hf : ∀ c ∈ faults, isRevoke c = true) :
    ∀ (assocs : List RTAssoc) (s : EC2State),
      (assocLoop faults vpcID rtID assocs s).2.2 = none := by
  intro assocs
  induction assocs with
  | nil => intro s; rfl
  | cons a rest ih =>
    intro s
    cases ha : a.assocId with
    | none => simp [assocLoop, ha, ih]
    | some aid =>
      have h1 : callFails faults (EC2Call.disassociateRouteTable aid) = false :=
        callFails_eq_false faults hf rfl
      simp [assocLoop, ha, h1, ih]

theorem rtLoop_err_none (faults : List EC2Call) (vpcID mainID : String)
    (hf : ∀ c ∈ faults, isRevoke c = true) :
    ∀ (rts : List RouteTable) (s : EC2State),
      (rtLoop faults vpcID mainID rts s).2.2 = none := by
  intro rts
  induction rts with
  | nil => intro s; rfl
  | cons rt rest ih =>
    intro s
    by_cases hm : (rt.rtId == mainID) = true
    · simp [rtLoop, hm, ih]
    · rcases hres : assocLoop faults vpcID rt.rtId rt.assocs s with ⟨s1, calls1, e⟩
      have he : e = none := by
        have h := assocLoop_err_none faults vpcID rt.rtId hf rt.assocs s
        rw [hres] at h
        exact h
      subst he
      have h1 : callFails faults (EC2Call.deleteRouteTable rt.rtId) = false :=
        callFails_eq_false faults hf rfl
      simp [rtLoop, hm, hres, h1, ih]

theorem deleteRouteTables_err_none (faults : List EC2Call) (s : EC2State)
    (vpcID : String) (hf : ∀ c ∈ faults, isRevoke c = true) :
    (deleteRouteTables faults s vpcID).2.2 = none := by
  have h0 : callFails faults (EC2Call.describeMainRouteTable vpcID) = false :=
    callFails_eq_false faults hf rfl
  have h1 : callFails faults (EC2Call.describeRouteTables vpcID) = false :=
    callFails_eq_false faults hf rfl
  simp [deleteRouteTables, h0, h1, rtLoop_err_none faults vpcID _ hf]

theorem sgDeleteLoop_err_none (faults : List EC2Call) (vpcID : String)
    (hf : ∀ c ∈ faults, isRevoke c = true) :
    ∀ (sgs : List SecurityGroup) (s : EC2State),
      (sgDeleteLoop faults vpcID sgs s).2.2 = none := by
  intro sgs
  induction sgs with
  | nil => intro s; rfl
  | cons sg rest ih =>
    intro s
    by_cases hd : (sg.name == "default") = true
    · simp [sgDeleteLoop, hd, ih]
    · have h1 : callFails faults (EC2Call.deleteSecurityGroup sg.sgId) = false :=
        callFails_eq_false faults hf rfl
      simp [sgDeleteLoop, hd, h1, ih]

theorem deleteSecurityGroups_err_none (faults : List EC2Call) (s : EC2State)
    (vpcID : String) (hf : ∀ c ∈ faults, isRevoke c = true) :
    (deleteSecurityGroups faults s vpcID).2.2 = none := by
  have h0 : callFails faults (EC2Call.describeSecurityGroups vpcID) = false :=
    callFails_eq_false faults hf rfl
  simp [deleteSecurityGroups, h0, sgDeleteLoop_err_none faults vpcID hf]

theorem deleteVPCStep_err_none (faults : List EC2Call) (s : EC2State)
    (vpcID : String) (hf : ∀ c ∈ faults, isRevoke c = true) :
    (deleteVPCStep faults s vpcID).2.2 = none := by
  have h0 : callFails faults (EC2Call.deleteVpc vpcID) = false :=
    callFails_eq_false faults hf rfl
  simp [deleteVPCStep, h0]

theorem pairwise_le_of_allIdx {l : List EC2Call} {k : Nat}
    (h : ∀ c ∈ l, stepIdx c = k) :
    l.Pairwise (fun a b => stepIdx a ≤ stepIdx b) := by
  induction l with
  | nil => exact List.Pairwise.nil
  | cons a t ih =>
    refine List.Pairwise.cons ?_ (ih ?_)
    · intro b hb
      rw [h a (List.mem_cons_self a t), h b (List.mem_cons_of_mem a hb)]
    · intro c hc
      exact h c (List.mem_cons_of_mem a hc)

theorem append_block {l1 l2 : List EC2Call} {k1 k2 : Nat}
    (h1 : l1.Pairwise (fun a b => stepIdx a ≤ stepIdx b))
    (hb1 : ∀ c ∈ l1, stepIdx c ≤ k1)
    (h2 : ∀ c ∈ l2, stepIdx c = k2)
    (hk : k1 ≤ k2) :
    ((l1 ++ l2).Pairwise (fun a b => stepIdx a ≤ stepIdx b))
    ∧ (∀ c ∈ l1 ++ l2, stepIdx c ≤ k2) := by
  constructor
  · refine List.pairwise_append.mpr ⟨h1, pairwise_le_of_allIdx h2, ?_⟩
    intro a ha b hb
    calc stepIdx a ≤ k1 := hb1 a ha
      _ ≤ k2 := hk
      _ = stepIdx b := (h2 b hb).symm
  · intro c hc
    rcases List.mem_append.mp hc with h | h
    · exact le_trans (hb1 c h) hk
    · exact le_of_eq (h2 c h)

/-- C6: for every fault pattern, EC2 state and VPC identifier, the per-VPC
teardown body issues its API calls in the fixed five-step order (the step
index along the call sequence is non-decreasing: gateways, subnets, route
tables, security groups, VPC); when every step succeeds the final call is
the `DeleteVpc` call; when it fails, the error is wrapped with the failing
step's message, no call of any step after the failing one has been issued —
in particular the `DeleteVpc` call is never issued when a step before step
5 fails — and failures of the revoke-rules calls alone never fail the
teardown. -/
theorem deleteOneVPC_step_order (faults : List EC2Call) (s : EC2State) (vpcID : String) :
    ((deleteOneVPC faults s vpcID).2.1.Pairwise (fun a b => stepIdx a ≤ stepIdx b))
    ∧ ((deleteOneVPC faults s vpcID).2.2 = none →
        (deleteOneVPC faults s vpcID).2.1.getLast? = some (EC2Call.deleteVpc vpcID))
    ∧ (∀ e, (deleteOneVPC faults s vpcID).2.2 = some e →
        ∃ k, 1 ≤ k ∧ k ≤ 5 ∧ goHasPre e (stepPre k) = true
          ∧ (∀ c ∈ (deleteOneVPC faults s vpcID).2.1, stepIdx c ≤ k)
          ∧ (k ≤ 4 → EC2Call.deleteVpc vpcID ∉ (deleteOneVPC faults s vpcID).2.1))
    ∧ ((∀ c ∈ faults, isRevoke c = true) →
        (deleteOneVPC faults s vpcID).2.2 = none) := by
  rcases h1 : deleteInternetGateways faults s vpcID with ⟨s1, c1, e1⟩
  have A1 : ∀ c ∈ c1, stepIdx c = 1 := by
    have h := deleteInternetGateways_allIdx faults s vpcID
    rw [h1] at h
    exact h
  unfold deleteOneVPC
  rw [h1]
  cases e1 with
  | some err1 =>
    dsimp only
    refine ⟨pairwise_le_of_allIdx A1, ?_, ?_, ?_⟩
    · intro h; simp at h
    · intro e he
      have he' : "deleting internet gateways: " ++ err1 = e := Option.some.inj he
      subst he'
      refine ⟨1, le_refl 1, by omega, goHasPre_append _ err1, ?_, ?_⟩
      · intro c hc; exact le_of_eq (A1 c hc)
      · intro _ hmem
        have h5 := A1 _ hmem
        simp [stepIdx] at h5
    · intro hrev
      exfalso
      have h := deleteInternetGateways_err_none faults s vpcID hrev
      rw [h1] at h
      simp at h
  | none =>
    dsimp only
    rcases h2 : deleteSubnets faults s1 vpcID with ⟨s2, c2, e2⟩
    have A2 : ∀ c ∈ c2, stepIdx c = 2 := by
      have h := deleteSubnets_allIdx faults s1 vpcID
      rw [h2] at h
      exact h
    have B1 : (c1.Pairwise (fun a b => stepIdx a ≤ stepIdx b)) ∧ ∀ c ∈ c1, stepIdx c ≤ 1 :=
      ⟨pairwise_le_of_allIdx A1, fun c hc => le_of_eq (A1 c hc)⟩
    have B2 := append_block B1.1 B1.2 A2 (by omega)
    cases e2 with
    | some err2 =>
      dsimp only
      refine ⟨B2.1, ?_, ?_, ?_⟩
      · intro h; simp at h
      · intro e he
        have he' : "deleting subnets: " ++ err2 = e := Option.some.inj he
        subst he'
        refine ⟨2, by omega, by omega, goHasPre_append _ err2, B2.2, ?_⟩
        · intro _ hmem
          have h5 := B2.2 _ hmem
          simp [stepIdx] at h5
      · intro hrev
        exfalso
        have h := deleteSubnets_err_none faults s1 vpcID hrev
        rw [h2] at h
        simp at h
    | none =>
      dsimp only
      rcases h3 : deleteRouteTables faults s2 vpcID with ⟨s3, c3, e3⟩
      have A3 : ∀ c ∈ c3, stepIdx c = 3 := by
        have h := deleteRouteTables_allIdx faults s2 vpcID
        rw [h3] at h
        exact h
      have B3 := append_block B2.1 B2.2 A3 (by omega)
      cases e3 with
      | some err3 =>
        dsimp only
        refine ⟨B3.1, ?_, ?_, ?_⟩
        · intro h; simp at h
        · intro e he
          have he' : "deleting route tables: " ++ err3 = e := Option.some.inj he
          subst he'
          refine ⟨3, by omega, by omega, goHasPre_append _ err3, B3.2, ?_⟩
          · intro _ hmem
            have h5 := B3.2 _ hmem
            simp [stepIdx] at h5
        · intro hrev
          exfalso
          have h := deleteRouteTables_err_none faults s2 vpcID hrev
          rw [h3] at h
          simp at h
      | none =>
        dsimp only
        rcases h4 : deleteSecurityGroups faults s3 vpcID with ⟨s4, c4, e4⟩
        have A4 : ∀ c ∈ c4, stepIdx c = 4 := by
          have h := deleteSecurityGroups_allIdx faults s3 vpcID
          rw [h4] at h
          exact h
        have B4 := append_block B3.1 B3.2 A4 (by omega)
        cases e4 with
        | some err4 =>
          dsimp only
          refine ⟨B4.1, ?_, ?_, ?_⟩
          · intro h; simp at h
          · intro e he
            have he' : "deleting security groups: " ++ err4 = e := Option.some.inj he
            subst he'
            refine ⟨4, by omega, by omega, goHasPre_append _ err4, B4.2, ?_⟩
            · intro _ hmem
              have h5 := B4.2 _ hmem
              simp [stepIdx] at h5
          · intro hrev
            exfalso
            have h := deleteSecurityGroups_err_none faults s3 vpcID hrev
            rw [h4] at h
            simp at h
        | none =>
          dsimp only
          rcases h5 : deleteVPCStep faults s4 vpcID with ⟨s5, c5, e5⟩
          have hc5 : c5 = [EC2Call.deleteVpc vpcID] := by
            have h := deleteVPCStep_calls faults s4 vpcID
            rw [h5] at h
            exact h
          have A5 : ∀ c ∈ c5, stepIdx c = 5 := by
            intro c hc
            rw [hc5] at hc
            simp at hc
            subst hc
            rfl
          have B5 := append_block B4.1 B4.2 A5 (by omega)
          cases e5 with
          | some err5 =>
            dsimp only
            refine ⟨B5.1, ?_, ?_, ?_⟩
            · intro h; simp at h
            · intro e he
              have he' : "deleting VPC: " ++ err5 = e := Option.some.inj he
              subst he'
              refine ⟨5, by omega, by omega, goHasPre_append _ err5, ?_, ?_⟩
              · intro c _; exact stepIdx_le_five c
              · intro h45; exact absurd h45 (by omega)
            · intro hrev
              exfalso
              have h := deleteVPCStep_err_none faults s4 vpcID hrev
              rw [h5] at h
              simp at h
          | none =>
            dsimp only
            refine ⟨B5.1, ?_, ?_, fun _ => rfl⟩
            · intro _
              rw [hc5]
              exact List.getLast?_concat _
            · intro e he; simp at he

/-- Witness for C6 at concrete inputs.  First run: a VPC with one gateway,
one subnet, one extra route table and one extra security group, where the
subnet delete fails — the trace stops inside step 2, in order, without the
`DeleteVpc` call.  Second run: the only faults are revoke calls — the
teardown still succeeds. -/
theorem deleteOneVPC_step_order_witness :
    ((deleteOneVPC [EC2Call.deleteSubnet "sub-1"]
        ⟨[("vpc-1", ⟨["igw-1"], ["sub-1"],
            [⟨"rt-main", true, [⟨some "a-0"⟩]⟩, ⟨"rt-1", false, [⟨some "a-1"⟩]⟩],
            [⟨"sg-default", "default", 1, 1⟩, ⟨"sg-1", "e2e", 2, 1⟩]⟩)]⟩
        "vpc-1").2.1.Pairwise (fun a b => stepIdx a ≤ stepIdx b))
    ∧ ((deleteOneVPC [EC2Call.revokeSecurityGroupIngress "sg-1",
          EC2Call.revokeSecurityGroupEgress "sg-1"]
        ⟨[("vpc-1", ⟨["igw-1"], ["sub-1"],
            [⟨"rt-main", true, [⟨some "a-0"⟩]⟩, ⟨"rt-1", false, [⟨some "a-1"⟩]⟩],
            [⟨"sg-default", "default", 1, 1⟩, ⟨"sg-1", "e2e", 2, 1⟩]⟩)]⟩
        "vpc-1").2.2 = none) :=
  ⟨(deleteOneVPC_step_order [EC2Call.deleteSubnet "sub-1"]
      ⟨[("vpc-1", ⟨["igw-1"], ["sub-1"],
          [⟨"rt-main", true, [⟨some "a-0"⟩]⟩, ⟨"rt-1", false, [⟨some "a-1"⟩]⟩],
          [⟨"sg-default", "default", 1, 1⟩, ⟨"sg-1", "e2e", 2, 1⟩]⟩)]⟩
      "vpc-1").1,
   (deleteOneVPC_step_order [EC2Call.revokeSecurityGroupIngress "sg-1",
        EC2Call.revokeSecurityGroupEgress "sg-1"]
      ⟨[("vpc-1", ⟨["igw-1"], ["sub-1"],
          [⟨"rt-main", true, [⟨some "a-0"⟩]⟩, ⟨"rt-1", false, [⟨some "a-1"⟩]⟩],
          [⟨"sg-default", "default", 1, 1⟩, ⟨"sg-1", "e2e", 2, 1⟩]⟩)]⟩
      "vpc-1").2.2.2 (by decide)⟩

end Cleanup
